import Mathlib

/-!
Verification development for `streamlit_app.py` (DJAI — the DJ's AI assistant).

The Python source is shallowly embedded:
* JSON values (`dict`/`list`/`str`/numbers/`None` returned by `response.json()`)
  become the inductive type `Json`; Python `float`/`int` values are idealised
  as rationals.
* Each HTTP helper becomes a pure function from the response the network would
  deliver (`Except String HttpResponse`, where `Except.error e` models an
  exception raised during the call) to a `CallResult`: the returned value, the
  list of HTTP requests issued, and the list of error strings displayed with
  `st.error`.
* The top-level `main` script becomes `mainRun`, which returns the ordered
  trace of stages performed and the HTTP requests issued.
-/

/-- JSON values as produced by `response.json()`.  Python `None` is `null`,
Python numbers are idealised as rationals. -/
inductive Json where
  | null
  | bool (b : Bool)
  | num (q : ℚ)
  | str (s : String)
  | arr (elems : List Json)
  | obj (fields : List (String × Json))

/-- Python truthiness (`if x:`): `None`, `False`, `0`, `""`, `[]`, and the
empty dict are falsy, everything else is truthy. -/
def Json.truthy : Json → Bool
  | .null => false
  | .bool b => b
  | .num q => decide (q ≠ 0)
  | .str s => decide (s ≠ "")
  | .arr es => !es.isEmpty
  | .obj fs => !fs.isEmpty

/-- Python `d[k]` on a JSON value: a lookup that succeeds only on a dict that
has the key (`KeyError`/`TypeError` otherwise, modelled as `none`). -/
def Json.get? : Json → String → Option Json
  | .obj fs, k => fs.lookup k
  | _, _ => none

/-- Python `d.get(k, default)`: `none` models the `AttributeError` raised when
the receiver is not a dict. -/
def Json.pyDictGet : Json → String → Json → Option Json
  | .obj fs, k, d => some ((fs.lookup k).getD d)
  | _, _, _ => none

/-- Python `xs[i]` for a non-negative index: succeeds only on a list that is
long enough (`TypeError`/`IndexError` otherwise). -/
def Json.idx? : Json → Nat → Option Json
  | .arr es, n => es[n]?
  | _, _ => none

/-- The underlying list of a JSON array (`none` models the `TypeError` raised
when Python iterates or takes `len` of a non-list). -/
def Json.asList? : Json → Option (List Json)
  | .arr es => some es
  | _ => none

/-- Numeric reading of a JSON value, as used by Python arithmetic such as
`features['energy'] - 0.1` (booleans count as ints; anything else raises
`TypeError`, modelled as `none`). -/
def Json.asNum? : Json → Option ℚ
  | .num q => some q
  | .bool b => some (if b then 1 else 0)
  | _ => none

/-- Python `str()` / f-string rendering of a JSON value.  Scalars are rendered
exactly (up to the rational idealisation of floats); containers are rendered
recursively in Python's `repr`-of-container style. -/
def Json.pyStr : Json → String
  | .null => "None"
  | .bool true => "True"
  | .bool false => "False"
  | .num q => toString q
  | .str s => s
  | .arr es => "[" ++ String.intercalate ", " (es.attach.map (fun e => e.1.pyStr)) ++ "]"
  | .obj fs =>
      "\x7b" ++
        String.intercalate ", "
          (fs.attach.map (fun kv => "\x27" ++ kv.1.1 ++ "\x27: " ++ kv.1.2.pyStr)) ++
      "\x7d"
decreasing_by
  · have h := List.sizeOf_lt_of_mem e.2
    simp_all
    omega
  · have h := List.sizeOf_lt_of_mem kv.2
    obtain ⟨⟨k, v⟩, hm⟩ := kv
    simp_all
    omega

/-- An HTTP request as assembled by the `requests` library: method, URL,
headers, and the query/form parameters (stringified). -/
structure HttpRequest where
  method : String
  url : String
  headers : List (String × String)
  params : List (String × String)
deriving DecidableEq

/-- An HTTP response: status code, parsed JSON body, and raw text. -/
structure HttpResponse where
  status : Nat
  body : Json
  text : String

/-- The observable outcome of one helper invocation: the value returned, the
HTTP requests issued, and the error strings displayed via `st.error`. -/
structure CallResult (α : Type) where
  result : α
  requests : List HttpRequest
  errors : List String

/-- The token request built by `get_spotify_access_token`: a POST of the
client-credentials form to the accounts token endpoint. -/
def tokenRequest (cid secret : String) : HttpRequest where
  method := "POST"
  url := "https://accounts.spotify.com/api/token"
  headers := [("Content-Type", "application/x-www-form-urlencoded")]
  params :=
    [("grant_type", "client_credentials"), ("client_id", cid), ("client_secret", secret)]

/-- `get_spotify_access_token`: POST the client-credentials exchange; on 200
return `token_info.get("access_token")`, otherwise display an error and
return `None` (= `Json.null`). -/
def get_spotify_access_token (cid secret : String) (resp : Except String HttpResponse) :
    CallResult Json :=
  match resp with
  | .error e =>
      ⟨Json.null, [tokenRequest cid secret], ["Error during authentication: " ++ e]⟩
  | .ok r =>
      if r.status = 200 then
        match r.body.pyDictGet "access_token" Json.null with
        | some tok => ⟨tok, [tokenRequest cid secret], []⟩
        | none =>
            ⟨Json.null, [tokenRequest cid secret],
              ["Error during authentication: AttributeError"]⟩
      else
        ⟨Json.null, [tokenRequest cid secret],
          ["Failed to get access token: " ++ toString r.status ++ " - " ++ r.text]⟩

/-- The search request built by `search_tracks`: a GET with the bearer token
header and query parameters `q`, `type=track`, `limit=5`. -/
def searchRequest (track_name : String) (access_token : Json) : HttpRequest where
  method := "GET"
  url := "https://api.spotify.com/v1/search"
  headers := [("Authorization", "Bearer " ++ access_token.pyStr)]
  params := [("q", track_name), ("type", "track"), ("limit", "5")]

/-- `search_tracks`: GET the search endpoint; on 200 return
`response.json().get('tracks', {}).get('items', [])`, otherwise display an
error and return the empty list. -/
def search_tracks (track_name : String) (access_token : Json)
    (resp : Except String HttpResponse) : CallResult Json :=
  match resp with
  | .error e =>
      ⟨Json.arr [], [searchRequest track_name access_token],
        ["Error during track search: " ++ e]⟩
  | .ok r =>
      if r.status = 200 then
        match r.body.pyDictGet "tracks" (Json.obj []) with
        | none =>
            ⟨Json.arr [], [searchRequest track_name access_token],
              ["Error during track search: AttributeError"]⟩
        | some tr =>
            match tr.pyDictGet "items" (Json.arr []) with
            | none =>
                ⟨Json.arr [], [searchRequest track_name access_token],
                  ["Error during track search: AttributeError"]⟩
            | some items => ⟨items, [searchRequest track_name access_token], []⟩
      else
        ⟨Json.arr [], [searchRequest track_name access_token],
          ["Error searching for track: " ++ toString r.status ++ " - " ++ r.text]⟩

/-- The audio-features request built by `get_audio_features`: a GET of the
audio-features endpoint for the track id, with the bearer token header. -/
def audioFeaturesRequest (track_id : Json) (access_token : Json) : HttpRequest where
  method := "GET"
  url := "https://api.spotify.com/v1/audio-features/" ++ track_id.pyStr
  headers := [("Authorization", "Bearer " ++ access_token.pyStr)]
  params := []

/-- `get_audio_features`: GET the audio-features endpoint; on 200 return the
parsed JSON body, otherwise display an error and return `None`. -/
def get_audio_features (track_id : Json) (access_token : Json)
    (resp : Except String HttpResponse) : CallResult Json :=
  match resp with
  | .error e =>
      ⟨Json.null, [audioFeaturesRequest track_id access_token],
        ["Error fetching audio features: " ++ e]⟩
  | .ok r =>
      if r.status = 200 then ⟨r.body, [audioFeaturesRequest track_id access_token], []⟩
      else
        ⟨Json.null, [audioFeaturesRequest track_id access_token],
          ["Error fetching data: " ++ toString r.status ++ " - " ++ r.text]⟩

/-- The recommendation query parameters of `get_track_recommendations`, kept
in their numeric form. -/
structure RecParams where
  seed_tracks : Json
  limit : Nat
  min_energy : ℚ
  max_energy : ℚ
  min_tempo : ℚ
  max_tempo : ℚ
  min_danceability : ℚ
  max_danceability : ℚ

/-- The parameter dictionary literal of `get_track_recommendations`, built
from the numeric audio features. -/
def recParamsCore (track_id : Json) (e t d : ℚ) : RecParams where
  seed_tracks := track_id
  limit := 10
  min_energy := max 0 (e - 1/10)
  max_energy := min 1 (e + 1/10)
  min_tempo := max 0 (t - 10)
  max_tempo := t + 10
  min_danceability := max 0 (d - 1/10)
  max_danceability := min 1 (d + 1/10)

/-- Building the parameters of `get_track_recommendations`: reads
`features['energy']`, `features['tempo']`, `features['danceability']` and does
arithmetic on them; `none` models the `KeyError`/`TypeError` caught by the
surrounding `except` clause. -/
def recParams (track_id : Json) (features : Json) : Option RecParams :=
  match (features.get? "energy").bind Json.asNum?,
      (features.get? "tempo").bind Json.asNum?,
      (features.get? "danceability").bind Json.asNum? with
  | some e, some t, some d => some (recParamsCore track_id e t d)
  | _, _, _ => none

/-- The recommendations request: a GET of the recommendations endpoint with
the bearer token header and the stringified window parameters. -/
def recsRequest (p : RecParams) (access_token : Json) : HttpRequest where
  method := "GET"
  url := "https://api.spotify.com/v1/recommendations"
  headers := [("Authorization", "Bearer " ++ access_token.pyStr)]
  params :=
    [("seed_tracks", p.seed_tracks.pyStr), ("limit", toString p.limit),
      ("min_energy", toString p.min_energy), ("max_energy", toString p.max_energy),
      ("min_tempo", toString p.min_tempo), ("max_tempo", toString p.max_tempo),
      ("min_danceability", toString p.min_danceability),
      ("max_danceability", toString p.max_danceability)]

/-- `get_track_recommendations`: build the windowed parameters (a failure
there is caught by the `except` clause before any request is made), GET the
recommendations endpoint; on 200 return `response.json().get('tracks', [])`,
otherwise display an error and return the empty list. -/
def get_track_recommendations (track_id : Json) (features : Json) (access_token : Json)
    (resp : Except String HttpResponse) : CallResult Json :=
  match recParams track_id features with
  | none => ⟨Json.arr [], [], ["Error fetching recommendations: KeyError"]⟩
  | some p =>
      match resp with
      | .error e =>
          ⟨Json.arr [], [recsRequest p access_token],
            ["Error fetching recommendations: " ++ e]⟩
      | .ok r =>
          if r.status = 200 then
            match r.body.pyDictGet "tracks" (Json.arr []) with
            | none =>
                ⟨Json.arr [], [recsRequest p access_token],
                  ["Error fetching recommendations: AttributeError"]⟩
            | some recs => ⟨recs, [recsRequest p access_token], []⟩
          else
            ⟨Json.arr [], [recsRequest p access_token],
              ["Error fetching recommendations: " ++ toString r.status ++ " - " ++ r.text]⟩

/-- Sequencing a fallible read over a list: `some` of all results when every
read succeeds, `none` as soon as one fails.  This is how a Python expression
that subscripts several keys in textual order (an f-string, a comprehension)
either produces its value or raises. -/
def mapAll {α β : Type} (f : α → Option β) : List α → Option (List β)
  | [] => some []
  | a :: as =>
      match f a, mapAll f as with
      | some b, some bs => some (b :: bs)
      | _, _ => none

/-- Subscripting every key of `ks` in order on the JSON dict `features`. -/
def lookupAll (features : Json) (ks : List String) : Option (List Json) :=
  mapAll (fun k => features.get? k) ks

/-- The nine audio-feature keys read, in textual order, by the prompt
f-strings of `recommend_dj_places` and `generate_image_based_on_description`. -/
def nineKeys : List String :=
  ["acousticness", "danceability", "energy", "instrumentalness", "liveness",
    "loudness", "speechiness", "tempo", "valence"]

/-- The five audio-feature keys read by the `prompt_instruction` f-string of
`generate_image_based_on_description`. -/
def fiveKeys : List String :=
  ["acousticness", "danceability", "energy", "tempo", "valence"]

/-- `description_prompt` of `recommend_dj_places`: the f-string reads the nine
feature keys in order; a missing key raises (modelled as `none`). -/
def djPrompt (features : Json) : Option String :=
  match lookupAll features nineKeys with
  | some [a, d, e, i, l, lo, sp, t, v] =>
      some
        ("\n    Based on the following audio features of the track, suggest the top 3-4 places or settings where a DJ could play this track, focusing on the overall feel and mood of the song, not just its tempo:\n\n    1. Acousticness: "
          ++ a.pyStr ++ " (A measure of how acoustic a track is.)\n    2. Danceability: "
          ++ d.pyStr ++ " (Suitability for dancing.)\n    3. Energy: "
          ++ e.pyStr ++ " (Intensity and activity.)\n    4. Instrumentalness: "
          ++ i.pyStr ++ " (Presence of vocals.)\n    5. Liveness: "
          ++ l.pyStr ++ " (Presence of an audience.)\n    6. Loudness: "
          ++ lo.pyStr ++ " dB (Overall loudness.)\n    7. Speechiness: "
          ++ sp.pyStr ++ " (Presence of spoken words.)\n    8. Tempo: "
          ++ t.pyStr ++ " BPM (Speed of the track.)\n    9. Valence: "
          ++ v.pyStr ++ " (Musical positiveness.)\n\n    Focus on the feel of the track, considering how the combination of these features would influence the environment where it could be best played. Suggest unique settings (clubs, lounges, outdoor festivals, intimate settings, etc.) based on the energy, mood, and vibe of the song.\n    ")
  | _ => none

/-- `description_prompt` of `generate_image_based_on_description`: reads the
same nine feature keys in the same order. -/
def imgDescPrompt (features : Json) : Option String :=
  match lookupAll features nineKeys with
  | some [a, d, e, i, l, lo, sp, t, v] =>
      some
        ("\n    Create a description of the track based on the following audio features:\n\n    1. Acousticness: "
          ++ a.pyStr ++ "\n    2. Danceability: "
          ++ d.pyStr ++ "\n    3. Energy: "
          ++ e.pyStr ++ "\n    4. Instrumentalness: "
          ++ i.pyStr ++ "\n    5. Liveness: "
          ++ l.pyStr ++ "\n    6. Loudness: "
          ++ lo.pyStr ++ "\n    7. Speechiness: "
          ++ sp.pyStr ++ "\n    8. Tempo: "
          ++ t.pyStr ++ " BPM\n    9. Valence: "
          ++ v.pyStr ++ "\n\n    Based on these characteristics, write a brief description of the song.\n    ")
  | _ => none

/-- `prompt_instruction` of `generate_image_based_on_description`: reads five
feature keys. -/
def imagePromptInstruction (features : Json) : Option String :=
  match lookupAll features fiveKeys with
  | some [a, d, e, t, v] =>
      some
        ("Generate an abstract, visually stunning HD art piece based on this track with acousticness "
          ++ a.pyStr ++ ", danceability " ++ d.pyStr ++ ", energy " ++ e.pyStr
          ++ ", tempo " ++ t.pyStr
          ++ " BPM, and valence " ++ v.pyStr
          ++ ". The art should capture the mood and essence of the music.")
  | _ => none

/-- The length guard in `generate_image_based_on_description`:
`if len(prompt_instruction) > 1000: prompt_instruction = prompt_instruction[:997] + "..."`. -/
def truncatePrompt (s : String) : String :=
  if s.length > 1000 then String.mk (s.toList.take 997) ++ "..." else s

/-- The prompt string actually passed to `openai.Image.create`, when the
construction succeeds. -/
def imagePromptSent (features : Json) : Option String :=
  (imagePromptInstruction features).map truncatePrompt

/-- Python whitespace as stripped by `str.strip()`. -/
def isPyWs (c : Char) : Bool :=
  c == ' ' || c == '\t' || c == '\n' || c == '\r' || c == '\x0b' || c == '\x0c'

/-- Python `str.strip()`: remove leading and trailing whitespace. -/
def pyStrip (s : String) : String :=
  String.mk (((s.toList.dropWhile isPyWs).reverse.dropWhile isPyWs).reverse)

/-- Python `str.split('\n')` on the character list: split at every newline,
keeping empty pieces (`''.split('\n') == ['']`). -/
def splitOnNl : List Char → List (List Char)
  | [] => [[]]
  | c :: cs =>
      let r := splitOnNl cs
      if c = '\n' then [] :: r
      else
        match r with
        | [] => [[c]]
        | h :: t => (c :: h) :: t

/-- Python `str.split('\n')` on strings. -/
def splitNl (s : String) : List String :=
  (splitOnNl s.toList).map String.mk

/-- The characters stripped by `place.lstrip("0123456789. ")`. -/
def stripChars : List Char :=
  ['0', '1', '2', '3', '4', '5', '6', '7', '8', '9', '.', ' ']

/-- Python `place.lstrip("0123456789. ")`. -/
def pyLstripNum (s : String) : String :=
  String.mk (s.toList.dropWhile (fun c => stripChars.contains c))

/-- The response post-processing of `recommend_dj_places`: strip the
completion text, split on newlines, keep the non-empty lines, and lstrip the
numbering characters from each. -/
def clean_places (content : String) : List String :=
  ((splitNl (pyStrip content)).filter (fun p => p ≠ "")).map pyLstripNum

/-- `recommend_dj_places`: the `description_prompt` f-string is evaluated
before the `try` block, so a missing feature key raises an uncaught
exception there — `none`, aborting the whole script run.  Otherwise make one
chat-completion call (whose SDK errors are caught and reported) and clean its
text: the returned pair is the list of places or `None`, with the error
strings displayed. -/
def recommend_dj_places (features : Json) (chatResp : Except String String) :
    Option (Option (List String) × List String) :=
  match djPrompt features with
  | none => none
  | some _ =>
      match chatResp with
      | .error e => some (none, ["OpenAI API error: " ++ e])
      | .ok content => some (some (clean_places content), [])

/-- The observable outcome of `generate_image_based_on_description`: the value
returned, the prompts passed to `openai.Image.create`, and the error strings
displayed. -/
structure GenImageResult where
  result : Option Json
  sent : List String
  errors : List String

/-- `generate_image_based_on_description`: its `description_prompt` f-string
is also evaluated before the `try` block, so a missing feature key raises an
uncaught exception — `none`, aborting the run.  Otherwise make the
chat-completion call, build and (if needed) truncate `prompt_instruction`
(this one lives inside the `try`, so its failure is caught and reported),
make the image call, and return `response['data'][0]['url']`; failures inside
the `try` are caught, reported, and turned into `None`. -/
def generate_image_based_on_description (features : Json)
    (chatResp : Except String String) (imageResp : Except String Json) :
    Option GenImageResult :=
  match imgDescPrompt features with
  | none => none
  | some _ =>
      match chatResp with
      | .error e => some ⟨none, [], ["OpenAI API error: " ++ e]⟩
      | .ok _description =>
          match imagePromptInstruction features with
          | none => some ⟨none, [], ["Unexpected error: KeyError"]⟩
          | some pi =>
              match imageResp with
              | .error e =>
                  some ⟨none, [truncatePrompt pi], ["OpenAI API error: " ++ e]⟩
              | .ok j =>
                  match ((j.get? "data").bind (fun d => d.idx? 0)).bind
                      (fun x => x.get? "url") with
                  | some url => some ⟨some url, [truncatePrompt pi], []⟩
                  | none =>
                      some ⟨none, [truncatePrompt pi], ["Unexpected error: KeyError"]⟩

/-- `feature_names` of `visualize_audio_features`: the seven features plotted
on the radar chart. -/
def feature_names : List String :=
  ["acousticness", "danceability", "energy", "instrumentalness", "liveness",
    "speechiness", "valence"]

/-- `visualize_audio_features`: read the seven feature values (an uncaught
`KeyError` if one is missing — modelled as `none`), and return the radar data
`r = values + [values[0]]`, `theta = names + [names[0]]`. -/
def visualize_audio_features (features : Json) : Option (List Json × List String) :=
  match lookupAll features feature_names with
  | some (v :: vs) => some ((v :: vs) ++ [v], feature_names ++ [feature_names.headI])
  | _ => none

/-- The per-track dictionary built in `main`'s selection loop. -/
structure TrackInfo where
  id : Json
  name : Json
  artist : Json
  album : Json
  album_art : Option Json

/-- Building one entry of `track_options` from a search item: subscripts
`id`, `name`, `artists[0]['name']`, `album['name']`, and
`album['images'][0]['url']` when the image list is non-empty.  A `none`
models an uncaught exception that crashes the script. -/
def trackInfo? (t : Json) : Option TrackInfo := do
  let i ← t.get? "id"
  let n ← t.get? "name"
  let artists ← t.get? "artists"
  let a0 ← artists.idx? 0
  let artist ← a0.get? "name"
  let album ← t.get? "album"
  let albumName ← album.get? "name"
  let images ← album.get? "images"
  let art ←
    match images.asList? with
    | none => none
    | some [] => some none
    | some (i0 :: _) => (i0.get? "url").map some
  pure ⟨i, n, artist, albumName, art⟩

/-- Building the whole `track_options` list. -/
def trackInfos? (tracks : List Json) : Option (List TrackInfo) :=
  mapAll trackInfo? tracks

/-- The fields `main` reads from one recommended track to display it:
`name`, `artists[0]['name']`, `external_urls['spotify']`. -/
def recTrackFields? (t : Json) : Option (Json × Json × Json) := do
  let n ← t.get? "name"
  let artists ← t.get? "artists"
  let a0 ← artists.idx? 0
  let an ← a0.get? "name"
  let eu ← t.get? "external_urls"
  let url ← eu.get? "spotify"
  pure (n, an, url)

/-- Whether the recommendations display loop of `main` runs to completion
(a `none` models an uncaught exception while rendering it). -/
def recsDisplayable? (recs : Json) : Option (List (Json × Json × Json)) :=
  recs.asList?.bind (mapAll recTrackFields?)

/-- The module-level variables of the script: the two Spotify credentials and
the OpenAI key installed into `openai.api_key` at import time. -/
structure Globals where
  SPOTIFY_CLIENT_ID : String
  SPOTIFY_CLIENT_SECRET : String
  openai_api_key : String
deriving DecidableEq

/-- Everything the environment feeds one run of `main`: the text-input value,
the widget value of the track-number input, and the response the network or
SDK would return at each call site. -/
structure MainInput where
  track_name : String
  selRaw : Int
  tokenResp : Except String HttpResponse
  searchResp : Except String HttpResponse
  featuresResp : Except String HttpResponse
  recsResp : Except String HttpResponse
  djChat : Except String String
  imgChat : Except String String
  imgGen : Except String Json

/-- The stages of one run of `main`, in the order they can occur.  `crash`
marks an uncaught exception stopping the script. -/
inductive Ev where
  | auth
  | search
  | select
  | features
  | djPlaces
  | artwork
  | recs
  | displayRecs
  | crash
deriving DecidableEq

/-- The canonical stage order of a fully successful run. -/
def fullOrder : List Ev :=
  [Ev.auth, Ev.search, Ev.select, Ev.features, Ev.djPlaces, Ev.artwork, Ev.recs,
    Ev.displayRecs]

/-- The token call `main` makes. -/
def tokenCall (g : Globals) (inp : MainInput) : CallResult Json :=
  get_spotify_access_token g.SPOTIFY_CLIENT_ID g.SPOTIFY_CLIENT_SECRET inp.tokenResp

/-- The search call `main` makes, with the token it just obtained. -/
def searchCall (g : Globals) (inp : MainInput) : CallResult Json :=
  search_tracks inp.track_name (tokenCall g inp).result inp.searchResp

/-- The track `main` selects: the search items parsed into `track_options`,
then indexed by `number_input - 1` under the bounds check of `main`. -/
def selectedTrack? (g : Globals) (inp : MainInput) : Option TrackInfo :=
  match (searchCall g inp).result.asList? with
  | none => none
  | some tracks =>
      match trackInfos? tracks with
      | none => none
      | some opts =>
          if 0 ≤ inp.selRaw - 1 ∧ inp.selRaw - 1 < (opts.length : Int) then
            opts[(inp.selRaw - 1).toNat]?
          else none

/-- The audio-features call `main` makes for the selected track. -/
def featuresCall? (g : Globals) (inp : MainInput) : Option (CallResult Json) :=
  (selectedTrack? g inp).map
    (fun sel => get_audio_features sel.id (tokenCall g inp).result inp.featuresResp)

/-- One run of `main`, top to bottom: the ordered trace of stages performed
and the HTTP requests issued.  Mirrors the guard structure of the script:
empty input short-circuits, a falsy token stops after auth, a falsy search
result stops after search, a failed `track_options` build crashes, an
out-of-range selection stops, falsy audio features stop after the features
fetch, and a failing radar-chart build crashes.  Each generative helper's
`description_prompt` is built before its `try`, so a failure there crashes
the run (before the artwork and recommendations stages, and before the
recommendations request, when it is the DJ-places prompt); otherwise the
enrichment calls run in order, with the recommendation display last. -/
def mainRun (g : Globals) (inp : MainInput) : List Ev × List HttpRequest :=
  if inp.track_name = "" then ([], [])
  else
    let tokC := tokenCall g inp
    if tokC.result.truthy = false then ([Ev.auth], tokC.requests)
    else
      let sC := searchCall g inp
      if sC.result.truthy = false then
        ([Ev.auth, Ev.search], tokC.requests ++ sC.requests)
      else
        match sC.result.asList? with
        | none => ([Ev.auth, Ev.search, Ev.crash], tokC.requests ++ sC.requests)
        | some tracks =>
            match trackInfos? tracks with
            | none => ([Ev.auth, Ev.search, Ev.crash], tokC.requests ++ sC.requests)
            | some opts =>
                if 0 ≤ inp.selRaw - 1 ∧ inp.selRaw - 1 < (opts.length : Int) then
                  match opts[(inp.selRaw - 1).toNat]? with
                  | none => ([Ev.auth, Ev.search], tokC.requests ++ sC.requests)
                  | some sel =>
                      let fC := get_audio_features sel.id tokC.result inp.featuresResp
                      if fC.result.truthy = false then
                        ([Ev.auth, Ev.search, Ev.select, Ev.features],
                          tokC.requests ++ sC.requests ++ fC.requests)
                      else
                        match visualize_audio_features fC.result with
                        | none =>
                            ([Ev.auth, Ev.search, Ev.select, Ev.features, Ev.crash],
                              tokC.requests ++ sC.requests ++ fC.requests)
                        | some _ =>
                            match recommend_dj_places fC.result inp.djChat with
                            | none =>
                                ([Ev.auth, Ev.search, Ev.select, Ev.features, Ev.crash],
                                  tokC.requests ++ sC.requests ++ fC.requests)
                            | some _dj =>
                                match generate_image_based_on_description fC.result
                                    inp.imgChat inp.imgGen with
                                | none =>
                                    ([Ev.auth, Ev.search, Ev.select, Ev.features,
                                        Ev.djPlaces, Ev.crash],
                                      tokC.requests ++ sC.requests ++ fC.requests)
                                | some _img =>
                                    let rC :=
                                      get_track_recommendations sel.id fC.result
                                        tokC.result inp.recsResp
                                    let evs :=
                                      [Ev.auth, Ev.search, Ev.select, Ev.features,
                                        Ev.djPlaces, Ev.artwork, Ev.recs]
                                    let reqs :=
                                      tokC.requests ++ sC.requests ++ fC.requests
                                        ++ rC.requests
                                    if rC.result.truthy = false then (evs, reqs)
                                    else
                                      match recsDisplayable? rC.result with
                                      | none => (evs ++ [Ev.crash], reqs)
                                      | some _ => (evs ++ [Ev.displayRecs], reqs)
                else ([Ev.auth, Ev.search], tokC.requests ++ sC.requests)

/-- `get_spotify_access_token` with the module-level state threaded through:
the function body contains no assignment to a module variable, so the state
passes through unchanged. -/
def get_spotify_access_token_app (g : Globals) (resp : Except String HttpResponse) :
    CallResult Json × Globals :=
  (get_spotify_access_token g.SPOTIFY_CLIENT_ID g.SPOTIFY_CLIENT_SECRET resp, g)

/-- `search_tracks` with the module-level state threaded through. -/
def search_tracks_app (g : Globals) (track_name : String) (access_token : Json)
    (resp : Except String HttpResponse) : CallResult Json × Globals :=
  (search_tracks track_name access_token resp, g)

/-- `get_audio_features` with the module-level state threaded through. -/
def get_audio_features_app (g : Globals) (track_id access_token : Json)
    (resp : Except String HttpResponse) : CallResult Json × Globals :=
  (get_audio_features track_id access_token resp, g)

/-- `get_track_recommendations` with the module-level state threaded through. -/
def get_track_recommendations_app (g : Globals) (track_id features access_token : Json)
    (resp : Except String HttpResponse) : CallResult Json × Globals :=
  (get_track_recommendations track_id features access_token resp, g)

/-- `recommend_dj_places` with the module-level state threaded through. -/
def recommend_dj_places_app (g : Globals) (features : Json)
    (chatResp : Except String String) :
    Option (Option (List String) × List String) × Globals :=
  (recommend_dj_places features chatResp, g)

/-- `generate_image_based_on_description` with the module-level state threaded
through. -/
def generate_image_based_on_description_app (g : Globals) (features : Json)
    (chatResp : Except String String) (imageResp : Except String Json) :
    Option GenImageResult × Globals :=
  (generate_image_based_on_description features chatResp imageResp, g)

/-- `visualize_audio_features` with the module-level state threaded through. -/
def visualize_audio_features_app (g : Globals) (features : Json) :
    Option (List Json × List String) × Globals :=
  (visualize_audio_features features, g)

/-- `main` with the module-level state threaded through. -/
def main_app (g : Globals) (inp : MainInput) :
    (List Ev × List HttpRequest) × Globals :=
  (mainRun g inp, g)

/-- A concrete audio-features dictionary with the nine numeric descriptors. -/
def sampleFeatures : Json :=
  Json.obj
    [("acousticness", Json.num (1/2)), ("danceability", Json.num (3/5)),
      ("energy", Json.num (1/2)), ("instrumentalness", Json.num (1/10)),
      ("liveness", Json.num (1/5)), ("loudness", Json.num (-6)),
      ("speechiness", Json.num (1/20)), ("tempo", Json.num 120),
      ("valence", Json.num (7/10))]

/-- The recommendations call `main` makes for a selected track and its
features. -/
def recsCallOf (g : Globals) (inp : MainInput) (sel : TrackInfo) (features : Json) :
    CallResult Json :=
  get_track_recommendations sel.id features (tokenCall g inp).result inp.recsResp

/-- Removing a key from a JSON dict (other values unchanged): the features
dictionary with one descriptor absent. -/
def dropKey (j : Json) (k : String) : Json :=
  match j with
  | .obj fs => .obj (fs.filter (fun p => !(p.1 == k)))
  | other => other

/-- A concrete search item with every field `main` reads. -/
def sampleTrackItem : Json :=
  Json.obj
    [("id", Json.str "t1"), ("name", Json.str "Song"),
      ("artists", Json.arr [Json.obj [("name", Json.str "Artist")]]),
      ("album", Json.obj [("name", Json.str "Album"), ("images", Json.arr [])])]

/-- A concrete recommended track with every field the display loop reads. -/
def sampleRecTrack : Json :=
  Json.obj
    [("name", Json.str "Rec"),
      ("artists", Json.arr [Json.obj [("name", Json.str "Artist2")]]),
      ("external_urls",
        Json.obj [("spotify", Json.str "https://open.spotify.com/track/x")])]

/-- Concrete module-level credentials. -/
def sampleGlobals : Globals :=
  ⟨"cid", "secret", "oai"⟩

/-- A concrete environment under which every stage of `main` succeeds. -/
def successInput : MainInput where
  track_name := "song"
  selRaw := 1
  tokenResp := Except.ok ⟨200, Json.obj [("access_token", Json.str "tok")], ""⟩
  searchResp :=
    Except.ok
      ⟨200, Json.obj [("tracks", Json.obj [("items", Json.arr [sampleTrackItem])])], ""⟩
  featuresResp := Except.ok ⟨200, sampleFeatures, ""⟩
  recsResp := Except.ok ⟨200, Json.obj [("tracks", Json.arr [sampleRecTrack])], ""⟩
  djChat := Except.ok "1. Club\n2. Lounge"
  imgChat := Except.ok "a description"
  imgGen :=
    Except.ok (Json.obj [("data", Json.arr [Json.obj [("url", Json.str "https://img")]])])

lemma mapAll_congr {α β : Type} (f h : α → Option β) :
    ∀ as : List α, (∀ a ∈ as, f a = h a) → mapAll f as = mapAll h as := by
  intro as
  induction as with
  | nil => intro _; rfl
  | cons a t ih =>
      intro hagree
      have h1 : f a = h a := hagree a (List.mem_cons_self a t)
      have h2 : mapAll f t = mapAll h t :=
        ih (fun x hx => hagree x (List.mem_cons_of_mem a hx))
      simp [mapAll, h1, h2]

lemma mapAll_isSome {α β : Type} (f : α → Option β) :
    ∀ as : List α, (∀ a ∈ as, (f a).isSome = true) →
      ∃ bs, mapAll f as = some bs ∧ bs.length = as.length := by
  intro as
  induction as with
  | nil => intro _; exact ⟨[], rfl, rfl⟩
  | cons a t ih =>
      intro hall
      obtain ⟨b, hb⟩ := Option.isSome_iff_exists.mp (hall a (List.mem_cons_self a t))
      obtain ⟨bs, hbs, hlen⟩ := ih (fun x hx => hall x (List.mem_cons_of_mem a hx))
      exact ⟨b :: bs, by simp [mapAll, hb, hbs], by simp [hlen]⟩

lemma mapAll_none {α β : Type} (f : α → Option β) :
    ∀ as : List α, ∀ a ∈ as, f a = none → mapAll f as = none := by
  intro as
  induction as with
  | nil => intro a ha _; cases ha
  | cons x t ih =>
      intro a ha hf
      rcases List.mem_cons.mp ha with rfl | hmem
      · simp [mapAll, hf]
      · cases hx : f x <;> simp [mapAll, hx, ih a hmem hf]

lemma lookup_filter_self (k : String) :
    ∀ fs : List (String × Json), (fs.filter (fun p => !(p.1 == k))).lookup k = none := by
  intro fs
  induction fs with
  | nil => rfl
  | cons p t ih =>
      obtain ⟨p1, p2⟩ := p
      by_cases h : p1 = k
      · have hpred : (!(p1 == k)) = false := by simp [h]
        rw [show List.filter (fun p => !(p.1 == k)) ((p1, p2) :: t)
              = List.filter (fun p => !(p.1 == k)) t by
            simp [List.filter_cons, hpred]]
        exact ih
      · have hbk : (k == p1) = false := by simp [Ne.symm h]
        have hpred : (!(p1 == k)) = true := by simp [h]
        rw [show List.filter (fun p => !(p.1 == k)) ((p1, p2) :: t)
              = (p1, p2) :: List.filter (fun p => !(p.1 == k)) t by
            simp [List.filter_cons, hpred]]
        simp only [List.lookup, hbk]
        exact ih

lemma head?_dropWhile_false {α : Type} (p : α → Bool) :
    ∀ (l : List α) (c : α), ((l.dropWhile p).head? = some c) → p c = false := by
  intro l
  induction l with
  | nil => intro c h; simp [List.dropWhile] at h
  | cons a t ih =>
      intro c h
      by_cases hp : p a
      · rw [List.dropWhile_cons_of_pos hp] at h
        exact ih c h
      · rw [List.dropWhile_cons_of_neg hp] at h
        simp only [List.head?_cons, Option.some.injEq] at h
        subst h
        simpa using hp

lemma get_spotify_access_token_requests (cid secret : String)
    (resp : Except String HttpResponse) :
    (get_spotify_access_token cid secret resp).requests = [tokenRequest cid secret] := by
  cases resp with
  | error e => rfl
  | ok r =>
      simp only [get_spotify_access_token]
      split
      · split <;> rfl
      · rfl

lemma search_tracks_requests (track_name : String) (access_token : Json)
    (resp : Except String HttpResponse) :
    (search_tracks track_name access_token resp).requests
      = [searchRequest track_name access_token] := by
  cases resp with
  | error e => rfl
  | ok r =>
      simp only [search_tracks]
      split
      · split
        · rfl
        · split <;> rfl
      · rfl

lemma get_audio_features_requests (track_id access_token : Json)
    (resp : Except String HttpResponse) :
    (get_audio_features track_id access_token resp).requests
      = [audioFeaturesRequest track_id access_token] := by
  cases resp with
  | error e => rfl
  | ok r =>
      simp only [get_audio_features]
      split <;> rfl

lemma get_track_recommendations_requests (track_id features access_token : Json)
    (resp : Except String HttpResponse) (p : RecParams)
    (hp : recParams track_id features = some p) :
    (get_track_recommendations track_id features access_token resp).requests
      = [recsRequest p access_token] := by
  cases resp with
  | error e => simp [get_track_recommendations, hp]
  | ok r =>
      simp only [get_track_recommendations, hp]
      split
      · split <;> rfl
      · rfl

lemma get_track_recommendations_requests_length (track_id features access_token : Json)
    (resp : Except String HttpResponse) :
    (get_track_recommendations track_id features access_token resp).requests.length ≤ 1 := by
  rcases hp : recParams track_id features with _ | p
  · cases resp with
    | error e => simp [get_track_recommendations, hp]
    | ok r =>
        simp only [get_track_recommendations, hp]
        simp
  · rw [get_track_recommendations_requests track_id features access_token resp p hp]
    simp

lemma get_track_recommendations_truthy_params (track_id features access_token : Json)
    (resp : Except String HttpResponse)
    (h : (get_track_recommendations track_id features access_token resp).result.truthy
          = true) :
    ∃ p, recParams track_id features = some p := by
  rcases hp : recParams track_id features with _ | p
  · exfalso
    rw [show (get_track_recommendations track_id features access_token resp)
          = ⟨Json.arr [], [], ["Error fetching recommendations: KeyError"]⟩ by
        simp [get_track_recommendations, hp]] at h
    simp [Json.truthy] at h
  · exact ⟨p, rfl⟩

lemma truncatePrompt_length (s : String) : (truncatePrompt s).length ≤ 1000 := by
  unfold truncatePrompt
  split
  · have h2 : (String.mk (s.toList.take 997)).length = (s.toList.take 997).length := rfl
    have h3 : ("..." : String).length = 3 := rfl
    rw [String.length_append, h2, h3]
    have h4 := List.length_take 997 s.toList
    omega
  · omega

lemma mainRun_cases (g : Globals) (inp : MainInput) :
    (inp.track_name = "" ∧ mainRun g inp = ([], []))
  ∨ (inp.track_name ≠ "" ∧ (tokenCall g inp).result.truthy = false
      ∧ mainRun g inp = ([Ev.auth], (tokenCall g inp).requests))
  ∨ (inp.track_name ≠ "" ∧ (tokenCall g inp).result.truthy = true
      ∧ (searchCall g inp).result.truthy = false
      ∧ mainRun g inp
          = ([Ev.auth, Ev.search],
              (tokenCall g inp).requests ++ (searchCall g inp).requests))
  ∨ (inp.track_name ≠ "" ∧ (tokenCall g inp).result.truthy = true
      ∧ (searchCall g inp).result.truthy = true
      ∧ selectedTrack? g inp = none
      ∧ (mainRun g inp
            = ([Ev.auth, Ev.search, Ev.crash],
                (tokenCall g inp).requests ++ (searchCall g inp).requests)
          ∨ mainRun g inp
            = ([Ev.auth, Ev.search],
                (tokenCall g inp).requests ++ (searchCall g inp).requests)))
  ∨ (∃ sel fC, inp.track_name ≠ "" ∧ (tokenCall g inp).result.truthy = true
      ∧ (searchCall g inp).result.truthy = true
      ∧ selectedTrack? g inp = some sel ∧ featuresCall? g inp = some fC
      ∧ fC.result.truthy = false
      ∧ mainRun g inp
          = ([Ev.auth, Ev.search, Ev.select, Ev.features],
              (tokenCall g inp).requests ++ (searchCall g inp).requests ++ fC.requests))
  ∨ (∃ sel fC, inp.track_name ≠ "" ∧ (tokenCall g inp).result.truthy = true
      ∧ (searchCall g inp).result.truthy = true
      ∧ selectedTrack? g inp = some sel ∧ featuresCall? g inp = some fC
      ∧ fC.result.truthy = true
      ∧ visualize_audio_features fC.result = none
      ∧ mainRun g inp
          = ([Ev.auth, Ev.search, Ev.select, Ev.features, Ev.crash],
              (tokenCall g inp).requests ++ (searchCall g inp).requests ++ fC.requests))
  ∨ (∃ sel fC, inp.track_name ≠ "" ∧ (tokenCall g inp).result.truthy = true
      ∧ (searchCall g inp).result.truthy = true
      ∧ selectedTrack? g inp = some sel ∧ featuresCall? g inp = some fC
      ∧ fC.result.truthy = true
      ∧ (∃ viz, visualize_audio_features fC.result = some viz)
      ∧ recommend_dj_places fC.result inp.djChat = none
      ∧ mainRun g inp
          = ([Ev.auth, Ev.search, Ev.select, Ev.features, Ev.crash],
              (tokenCall g inp).requests ++ (searchCall g inp).requests ++ fC.requests))
  ∨ (∃ sel fC dj, inp.track_name ≠ "" ∧ (tokenCall g inp).result.truthy = true
      ∧ (searchCall g inp).result.truthy = true
      ∧ selectedTrack? g inp = some sel ∧ featuresCall? g inp = some fC
      ∧ fC.result.truthy = true
      ∧ (∃ viz, visualize_audio_features fC.result = some viz)
      ∧ recommend_dj_places fC.result inp.djChat = some dj
      ∧ generate_image_based_on_description fC.result inp.imgChat inp.imgGen = none
      ∧ mainRun g inp
          = ([Ev.auth, Ev.search, Ev.select, Ev.features, Ev.djPlaces, Ev.crash],
              (tokenCall g inp).requests ++ (searchCall g inp).requests ++ fC.requests))
  ∨ (∃ sel fC, inp.track_name ≠ "" ∧ (tokenCall g inp).result.truthy = true
      ∧ (searchCall g inp).result.truthy = true
      ∧ selectedTrack? g inp = some sel ∧ featuresCall? g inp = some fC
      ∧ fC.result.truthy = true
      ∧ (∃ viz, visualize_audio_features fC.result = some viz)
      ∧ (∃ dj, recommend_dj_places fC.result inp.djChat = some dj)
      ∧ (∃ im, generate_image_based_on_description fC.result inp.imgChat inp.imgGen
            = some im)
      ∧ ((recsCallOf g inp sel fC.result).result.truthy = false
            ∧ mainRun g inp
              = ([Ev.auth, Ev.search, Ev.select, Ev.features, Ev.djPlaces, Ev.artwork,
                    Ev.recs],
                  (tokenCall g inp).requests ++ (searchCall g inp).requests
                    ++ fC.requests ++ (recsCallOf g inp sel fC.result).requests)
          ∨ (recsCallOf g inp sel fC.result).result.truthy = true
            ∧ recsDisplayable? (recsCallOf g inp sel fC.result).result = none
            ∧ mainRun g inp
              = ([Ev.auth, Ev.search, Ev.select, Ev.features, Ev.djPlaces, Ev.artwork,
                    Ev.recs, Ev.crash],
                  (tokenCall g inp).requests ++ (searchCall g inp).requests
                    ++ fC.requests ++ (recsCallOf g inp sel fC.result).requests)
          ∨ (recsCallOf g inp sel fC.result).result.truthy = true
            ∧ (∃ ds, recsDisplayable? (recsCallOf g inp sel fC.result).result = some ds)
            ∧ mainRun g inp
              = (fullOrder,
                  (tokenCall g inp).requests ++ (searchCall g inp).requests
                    ++ fC.requests ++ (recsCallOf g inp sel fC.result).requests))) := by
  by_cases h0 : inp.track_name = ""
  · exact Or.inl ⟨h0, by simp [mainRun, h0]⟩
  cases h1 : (tokenCall g inp).result.truthy with
  | false => exact Or.inr (Or.inl ⟨h0, rfl, by simp [mainRun, h0, h1]⟩)
  | true =>
  cases h2 : (searchCall g inp).result.truthy with
  | false =>
      exact Or.inr (Or.inr (Or.inl ⟨h0, rfl, rfl, by simp [mainRun, h0, h1, h2]⟩))
  | true =>
  cases h3 : (searchCall g inp).result.asList? with
  | none =>
      refine Or.inr (Or.inr (Or.inr (Or.inl ⟨h0, rfl, rfl, ?_, Or.inl ?_⟩)))
      · simp [selectedTrack?, h3]
      · simp [mainRun, h0, h1, h2, h3]
  | some tracks =>
  cases h4 : trackInfos? tracks with
  | none =>
      refine Or.inr (Or.inr (Or.inr (Or.inl ⟨h0, rfl, rfl, ?_, Or.inl ?_⟩)))
      · simp [selectedTrack?, h3, h4]
      · simp [mainRun, h0, h1, h2, h3, h4]
  | some opts =>
  by_cases h5 : 0 ≤ inp.selRaw - 1 ∧ inp.selRaw - 1 < (opts.length : Int)
  case neg =>
      refine Or.inr (Or.inr (Or.inr (Or.inl ⟨h0, rfl, rfl, ?_, Or.inr ?_⟩)))
      · simp only [selectedTrack?, h3, h4]
        rw [if_neg h5]
      · simp only [mainRun, h1, h2, h3, h4]
        rw [if_neg h0, if_neg (by simp [h1]), if_neg (by simp [h2]), if_neg h5]
  case pos =>
  cases h6 : opts[(inp.selRaw - 1).toNat]? with
  | none =>
      exfalso
      obtain ⟨ha, hb⟩ := h5
      have hlt : (inp.selRaw - 1).toNat < opts.length := by omega
      rw [List.getElem?_eq_getElem hlt] at h6
      cases h6
  | some sel =>
  have h6' : opts[inp.selRaw.toNat - 1]? = some sel := by simpa using h6
  have hsel : selectedTrack? g inp = some sel := by
    simp [selectedTrack?, h3, h4, h5, h6']
  have hfc : featuresCall? g inp
      = some (get_audio_features sel.id (tokenCall g inp).result inp.featuresResp) := by
    simp [featuresCall?, hsel]
  cases h7 : (get_audio_features sel.id (tokenCall g inp).result
      inp.featuresResp).result.truthy with
  | false =>
      refine Or.inr (Or.inr (Or.inr (Or.inr (Or.inl
        ⟨sel, _, h0, rfl, rfl, hsel, hfc, h7, ?_⟩))))
      simp [mainRun, h0, h1, h2, h3, h4, h5, h6', h7]
  | true =>
  cases h8 : visualize_audio_features (get_audio_features sel.id
      (tokenCall g inp).result inp.featuresResp).result with
  | none =>
      refine Or.inr (Or.inr (Or.inr (Or.inr (Or.inr (Or.inl
        ⟨sel, _, h0, rfl, rfl, hsel, hfc, h7, h8, ?_⟩)))))
      simp [mainRun, h0, h1, h2, h3, h4, h5, h6', h7, h8]
  | some viz =>
  cases h11 : recommend_dj_places (get_audio_features sel.id
      (tokenCall g inp).result inp.featuresResp).result inp.djChat with
  | none =>
      refine Or.inr (Or.inr (Or.inr (Or.inr (Or.inr (Or.inr (Or.inl
        ⟨sel, _, h0, rfl, rfl, hsel, hfc, h7, ⟨viz, h8⟩, h11, ?_⟩))))))
      simp [mainRun, h0, h1, h2, h3, h4, h5, h6', h7, h8, h11]
  | some dj =>
  cases h12 : generate_image_based_on_description (get_audio_features sel.id
      (tokenCall g inp).result inp.featuresResp).result inp.imgChat inp.imgGen with
  | none =>
      refine Or.inr (Or.inr (Or.inr (Or.inr (Or.inr (Or.inr (Or.inr (Or.inl
        ⟨sel, _, dj, h0, rfl, rfl, hsel, hfc, h7, ⟨viz, h8⟩, h11, h12, ?_⟩)))))))
      simp [mainRun, h0, h1, h2, h3, h4, h5, h6', h7, h8, h11, h12]
  | some im =>
  cases h9 : (recsCallOf g inp sel (get_audio_features sel.id
      (tokenCall g inp).result inp.featuresResp).result).result.truthy with
  | false =>
      refine Or.inr (Or.inr (Or.inr (Or.inr (Or.inr (Or.inr (Or.inr (Or.inr
        ⟨sel, _, h0, rfl, rfl, hsel, hfc, h7, ⟨viz, h8⟩, ⟨dj, h11⟩, ⟨im, h12⟩,
          Or.inl ⟨h9, ?_⟩⟩)))))))
      simp only [recsCallOf] at h9
      simp [mainRun, h0, h1, h2, h3, h4, h5, h6', h7, h8, h11, h12, h9, recsCallOf]
  | true =>
  cases h10 : recsDisplayable? (recsCallOf g inp sel (get_audio_features sel.id
      (tokenCall g inp).result inp.featuresResp).result).result with
  | none =>
      refine Or.inr (Or.inr (Or.inr (Or.inr (Or.inr (Or.inr (Or.inr (Or.inr
        ⟨sel, _, h0, rfl, rfl, hsel, hfc, h7, ⟨viz, h8⟩, ⟨dj, h11⟩, ⟨im, h12⟩,
          Or.inr (Or.inl ⟨h9, h10, ?_⟩)⟩)))))))
      simp only [recsCallOf] at h9 h10
      simp [mainRun, h0, h1, h2, h3, h4, h5, h6', h7, h8, h11, h12, h9, h10, recsCallOf]
  | some ds =>
      refine Or.inr (Or.inr (Or.inr (Or.inr (Or.inr (Or.inr (Or.inr (Or.inr
        ⟨sel, _, h0, rfl, rfl, hsel, hfc, h7, ⟨viz, h8⟩, ⟨dj, h11⟩, ⟨im, h12⟩,
          Or.inr (Or.inr ⟨h9, ⟨ds, h10⟩, ?_⟩)⟩)))))))
      simp only [recsCallOf] at h9 h10
      simp [mainRun, h0, h1, h2, h3, h4, h5, h6', h7, h8, h11, h12, h9, h10, recsCallOf,
        fullOrder]

/-- C1: every catalog read operation (track search, audio-features fetch, and
track recommendations) sends an `Authorization: Bearer <token>` header whose
token is the `access_token` obtained by `get_spotify_access_token`, which
itself issues a client-credentials POST carrying `grant_type`,
`client_id`, and `client_secret`. -/
theorem catalog_calls_send_bearer_token (cid secret : String)
    (resp : Except String HttpResponse) (tok : Json)
    (h : (get_spotify_access_token cid secret resp).result = tok) :
    (∀ q resp2, (search_tracks q tok resp2).requests = [searchRequest q tok])
  ∧ (∀ q, (searchRequest q tok).headers = [("Authorization", "Bearer " ++ tok.pyStr)])
  ∧ (∀ tid resp2,
      (get_audio_features tid tok resp2).requests = [audioFeaturesRequest tid tok])
  ∧ (∀ tid, (audioFeaturesRequest tid tok).headers
      = [("Authorization", "Bearer " ++ tok.pyStr)])
  ∧ (∀ tid f p resp2, recParams tid f = some p →
      (get_track_recommendations tid f tok resp2).requests = [recsRequest p tok])
  ∧ (∀ p, (recsRequest p tok).headers = [("Authorization", "Bearer " ++ tok.pyStr)])
  ∧ (get_spotify_access_token cid secret resp).requests = [tokenRequest cid secret]
  ∧ (tokenRequest cid secret).method = "POST"
  ∧ ("grant_type", "client_credentials") ∈ (tokenRequest cid secret).params
  ∧ ("client_id", cid) ∈ (tokenRequest cid secret).params
  ∧ ("client_secret", secret) ∈ (tokenRequest cid secret).params := by
  refine ⟨fun q r2 => search_tracks_requests q tok r2, fun q => rfl,
    fun tid r2 => get_audio_features_requests tid tok r2, fun tid => rfl,
    fun tid f p r2 hp => get_track_recommendations_requests tid f tok r2 p hp,
    fun p => rfl, get_spotify_access_token_requests cid secret resp, rfl, ?_, ?_, ?_⟩
  · simp [tokenRequest]
  · simp [tokenRequest]
  · simp [tokenRequest]

/-- Witness for C1 at a concrete successful token exchange. -/
theorem catalog_calls_send_bearer_token_witness :
    (searchRequest "hello" (Json.str "tok")).headers
      = [("Authorization", "Bearer " ++ (Json.str "tok").pyStr)] :=
  (catalog_calls_send_bearer_token "id" "secret"
      (Except.ok ⟨200, Json.obj [("access_token", Json.str "tok")], ""⟩) (Json.str "tok")
      (by rfl)).2.1 "hello"

/-- C2: on any non-200 response, and on any exception during the call, each
catalog helper displays exactly one error string and returns its failure
value — `None` for `get_spotify_access_token` and `get_audio_features`, the
empty list for `search_tracks` and `get_track_recommendations`. -/
theorem helpers_fail_closed (cid secret q : String) (tok tid f : Json)
    (resp : Except String HttpResponse)
    (h : ∀ r, resp = Except.ok r → r.status ≠ 200) :
    ((get_spotify_access_token cid secret resp).result = Json.null
      ∧ (get_spotify_access_token cid secret resp).errors.length = 1)
  ∧ ((search_tracks q tok resp).result = Json.arr []
      ∧ (search_tracks q tok resp).errors.length = 1)
  ∧ ((get_audio_features tid tok resp).result = Json.null
      ∧ (get_audio_features tid tok resp).errors.length = 1)
  ∧ ((get_track_recommendations tid f tok resp).result = Json.arr []
      ∧ (get_track_recommendations tid f tok resp).errors.length = 1) := by
  cases resp with
  | error e =>
      refine ⟨⟨rfl, rfl⟩, ⟨rfl, rfl⟩, ⟨rfl, rfl⟩, ?_⟩
      rcases hp : recParams tid f with _ | p <;> simp [get_track_recommendations, hp]
  | ok r =>
      have hs : ¬(r.status = 200) := h r rfl
      refine ⟨?_, ?_, ?_, ?_⟩
      · simp [get_spotify_access_token, hs]
      · simp [search_tracks, hs]
      · simp [get_audio_features, hs]
      · rcases hp : recParams tid f with _ | p <;>
          simp [get_track_recommendations, hp, hs]

/-- Witness for C2 at a concrete exception. -/
theorem helpers_fail_closed_witness :
    (get_spotify_access_token "id" "secret" (Except.error "boom")).result = Json.null
    ∧ (get_spotify_access_token "id" "secret" (Except.error "boom")).errors.length = 1 :=
  (helpers_fail_closed "id" "secret" "q" Json.null Json.null Json.null
      (Except.error "boom") (fun r hr => nomatch hr)).1

/-- C4: each helper issues at most one HTTP request per invocation, whatever
the response or exception: no retries, no extra requests. -/
theorem at_most_one_request_per_call (cid secret q : String) (tok tid f : Json)
    (resp1 resp2 resp3 resp4 : Except String HttpResponse) :
    (get_spotify_access_token cid secret resp1).requests.length ≤ 1
  ∧ (search_tracks q tok resp2).requests.length ≤ 1
  ∧ (get_audio_features tid tok resp3).requests.length ≤ 1
  ∧ (get_track_recommendations tid f tok resp4).requests.length ≤ 1 := by
  refine ⟨?_, ?_, ?_, get_track_recommendations_requests_length tid f tok resp4⟩
  · rw [get_spotify_access_token_requests]; simp
  · rw [search_tracks_requests]; simp
  · rw [get_audio_features_requests]; simp

/-- C7: no helper mutates the module-level state (the Spotify credential
globals and the configured OpenAI key): threading the module state through
each call returns it unchanged. -/
theorem no_module_state_mutation (g : Globals) (q : String) (tok tid f : Json)
    (resp1 resp2 resp3 resp4 : Except String HttpResponse)
    (chat1 chat2 : Except String String) (img : Except String Json)
    (inp : MainInput) :
    (get_spotify_access_token_app g resp1).2 = g
  ∧ (search_tracks_app g q tok resp2).2 = g
  ∧ (get_audio_features_app g tid tok resp3).2 = g
  ∧ (get_track_recommendations_app g tid f tok resp4).2 = g
  ∧ (recommend_dj_places_app g f chat1).2 = g
  ∧ (generate_image_based_on_description_app g f chat2 img).2 = g
  ∧ (visualize_audio_features_app g f).2 = g
  ∧ (main_app g inp).2 = g :=
  ⟨rfl, rfl, rfl, rfl, rfl, rfl, rfl, rfl⟩

/-- C10: under features with energy and danceability in the unit interval and
non-negative tempo, the recommendation query windows satisfy
`0 ≤ min ≤ max` with the energy/danceability maxima clamped at 1, and each
bound has exactly the clamped-window form of the source. -/
theorem recommendation_window_bounds (tid f : Json) (e t d : ℚ) (p : RecParams)
    (hE : (f.get? "energy").bind Json.asNum? = some e)
    (hT : (f.get? "tempo").bind Json.asNum? = some t)
    (hD : (f.get? "danceability").bind Json.asNum? = some d)
    (he0 : 0 ≤ e) (he1 : e ≤ 1) (hd0 : 0 ≤ d) (hd1 : d ≤ 1) (ht0 : 0 ≤ t)
    (hp : recParams tid f = some p) :
    0 ≤ p.min_energy ∧ p.min_energy ≤ p.max_energy ∧ p.max_energy ≤ 1
  ∧ 0 ≤ p.min_danceability ∧ p.min_danceability ≤ p.max_danceability
  ∧ p.max_danceability ≤ 1
  ∧ 0 ≤ p.min_tempo ∧ p.min_tempo ≤ p.max_tempo
  ∧ p.min_energy = max 0 (e - 1/10) ∧ p.max_energy = min 1 (e + 1/10)
  ∧ p.min_danceability = max 0 (d - 1/10) ∧ p.max_danceability = min 1 (d + 1/10)
  ∧ p.min_tempo = max 0 (t - 10) ∧ p.max_tempo = t + 10 := by
  have hpc : p = recParamsCore tid e t d := by
    simp only [recParams, hE, hT, hD] at hp
    exact (Option.some.inj hp).symm
  subst hpc
  refine ⟨le_max_left 0 _, ?_, min_le_left 1 _, le_max_left 0 _, ?_, min_le_left 1 _,
    le_max_left 0 _, ?_, rfl, rfl, rfl, rfl, rfl, rfl⟩
  all_goals simp only [recParamsCore]
  · exact max_le (le_min (by norm_num) (by linarith)) (le_min (by linarith) (by linarith))
  · exact max_le (le_min (by norm_num) (by linarith)) (le_min (by linarith) (by linarith))
  · exact max_le (by linarith) (by linarith)

/-- Witness for C10 at the concrete sample features. -/
theorem recommendation_window_bounds_witness :
    0 ≤ ((recParams (Json.str "t1") sampleFeatures).getD
        (recParamsCore (Json.str "t1") 0 0 0)).min_energy :=
  (recommendation_window_bounds (Json.str "t1") sampleFeatures (1/2) 120 (3/5)
      ((recParams (Json.str "t1") sampleFeatures).getD (recParamsCore (Json.str "t1") 0 0 0))
      (by rfl) (by rfl) (by rfl) (by norm_num) (by norm_num) (by norm_num) (by norm_num)
      (by norm_num) (by rfl)).1

/-- C8: the prompt passed to the image-generation call never exceeds 1000
characters — the constructed `prompt_instruction` is passed unchanged when it
fits, and otherwise replaced by its first 997 characters followed by
`"..."`; every prompt `generate_image_based_on_description` actually sends
(on the runs where it does not abort) is exactly that string. -/
theorem image_prompt_length_bound (f : Json) (p : String)
    (h : imagePromptSent f = some p) :
    p.length ≤ 1000
  ∧ (∃ q, imagePromptInstruction f = some q
      ∧ (q.length ≤ 1000 → p = q)
      ∧ (1000 < q.length → p = String.mk (q.toList.take 997) ++ "..."))
  ∧ (∀ chatResp imageResp res s,
      generate_image_based_on_description f chatResp imageResp = some res →
      s ∈ res.sent → s = p) := by
  obtain ⟨q, hq, hpq⟩ : ∃ q, imagePromptInstruction f = some q ∧ truncatePrompt q = p := by
    rcases hi : imagePromptInstruction f with _ | q
    · rw [imagePromptSent, hi] at h
      cases h
    · refine ⟨q, rfl, ?_⟩
      rw [imagePromptSent, hi] at h
      exact Option.some.inj h
  subst hpq
  refine ⟨truncatePrompt_length q, ⟨q, hq, ?_, ?_⟩, ?_⟩
  · intro hle
    unfold truncatePrompt
    rw [if_neg (by omega)]
  · intro hgt
    unfold truncatePrompt
    rw [if_pos (by omega)]
  · intro chatResp imageResp res s hres hs
    unfold generate_image_based_on_description at hres
    rcases hd : imgDescPrompt f with _ | dsc
    · rw [hd] at hres
      simp at hres
    · rw [hd] at hres
      cases chatResp with
      | error e =>
          simp only [Option.some.injEq] at hres
          subst hres
          simp at hs
      | ok c =>
          rw [hq] at hres
          cases imageResp with
          | error e =>
              simp only [Option.some.injEq] at hres
              subst hres
              simpa using hs
          | ok j =>
              rcases hu : ((j.get? "data").bind (fun d => d.idx? 0)).bind
                  (fun x => x.get? "url") with _ | u
              · simp only [hu, Option.some.injEq] at hres
                subst hres
                simpa using hs
              · simp only [hu, Option.some.injEq] at hres
                subst hres
                simpa using hs

/-- Witness for C8 at the concrete sample features. -/
theorem image_prompt_length_bound_witness :
    ((imagePromptSent sampleFeatures).getD "").length ≤ 1000 :=
  (image_prompt_length_bound sampleFeatures ((imagePromptSent sampleFeatures).getD "")
      (by rfl)).1

/-- C6: the two prompt builders read exactly the nine audio-feature keys and
the radar chart exactly the seven excluding loudness and tempo: with the nine
keys present and numeric all three constructions succeed, each construction
depends only on its keys, and removing any one of its keys makes it fail. -/
theorem audio_feature_key_sets (f : Json)
    (h : ∀ k ∈ nineKeys, ∃ q : ℚ, f.get? k = some (Json.num q)) :
    ((djPrompt f).isSome = true ∧ (imgDescPrompt f).isSome = true
      ∧ (visualize_audio_features f).isSome = true)
  ∧ (∀ f2, (∀ k ∈ nineKeys, f2.get? k = f.get? k) →
      djPrompt f2 = djPrompt f ∧ imgDescPrompt f2 = imgDescPrompt f)
  ∧ (∀ f2, (∀ k ∈ feature_names, f2.get? k = f.get? k) →
      visualize_audio_features f2 = visualize_audio_features f)
  ∧ (∀ f2 k, k ∈ nineKeys →
      djPrompt (dropKey f2 k) = none ∧ imgDescPrompt (dropKey f2 k) = none)
  ∧ (∀ f2 k, k ∈ feature_names → visualize_audio_features (dropKey f2 k) = none)
  ∧ feature_names
      = nineKeys.filter (fun k => !(k == "loudness") && !(k == "tempo")) := by
  obtain ⟨q1, hq1⟩ := h "acousticness" (by simp [nineKeys])
  obtain ⟨q2, hq2⟩ := h "danceability" (by simp [nineKeys])
  obtain ⟨q3, hq3⟩ := h "energy" (by simp [nineKeys])
  obtain ⟨q4, hq4⟩ := h "instrumentalness" (by simp [nineKeys])
  obtain ⟨q5, hq5⟩ := h "liveness" (by simp [nineKeys])
  obtain ⟨q6, hq6⟩ := h "loudness" (by simp [nineKeys])
  obtain ⟨q7, hq7⟩ := h "speechiness" (by simp [nineKeys])
  obtain ⟨q8, hq8⟩ := h "tempo" (by simp [nineKeys])
  obtain ⟨q9, hq9⟩ := h "valence" (by simp [nineKeys])
  have hnone : ∀ (f2 : Json) (k : String), (dropKey f2 k).get? k = none := by
    intro f2 k
    cases f2 <;> simp [dropKey, Json.get?, lookup_filter_self]
  refine ⟨⟨?_, ?_, ?_⟩, ?_, ?_, ?_, ?_, ?_⟩
  · simp [djPrompt, lookupAll, mapAll, nineKeys, hq1, hq2, hq3, hq4, hq5, hq6, hq7,
      hq8, hq9]
  · simp [imgDescPrompt, lookupAll, mapAll, nineKeys, hq1, hq2, hq3, hq4, hq5, hq6,
      hq7, hq8, hq9]
  · simp [visualize_audio_features, lookupAll, mapAll, feature_names, hq1, hq2, hq3,
      hq4, hq5, hq7, hq9]
  · intro f2 hag
    have hl : lookupAll f2 nineKeys = lookupAll f nineKeys :=
      mapAll_congr _ _ nineKeys hag
    constructor
    · simp only [djPrompt, hl]
    · simp only [imgDescPrompt, hl]
  · intro f2 hag
    have hl : lookupAll f2 feature_names = lookupAll f feature_names :=
      mapAll_congr _ _ feature_names hag
    simp only [visualize_audio_features, hl]
  · intro f2 k hk
    have hl : lookupAll (dropKey f2 k) nineKeys = none :=
      mapAll_none _ nineKeys k hk (hnone f2 k)
    constructor
    · simp [djPrompt, hl]
    · simp [imgDescPrompt, hl]
  · intro f2 k hk
    have hl : lookupAll (dropKey f2 k) feature_names = none :=
      mapAll_none _ feature_names k hk (hnone f2 k)
    simp [visualize_audio_features, hl]
  · decide

/-- Witness for C6 at the concrete sample features. -/
theorem audio_feature_key_sets_witness :
    (djPrompt sampleFeatures).isSome = true :=
  (audio_feature_key_sets sampleFeatures (by
      intro k hk
      simp only [nineKeys, List.mem_cons, List.not_mem_nil, or_false] at hk
      rcases hk with rfl | rfl | rfl | rfl | rfl | rfl | rfl | rfl | rfl <;>
        exact ⟨_, rfl⟩)).1.1

/-- C3: every run of `main` performs the stages in the fixed linear order
auth → search → select → features-enrichment → DJ-places → artwork →
recommendations → display (its trace is a front part of that order, possibly
ending in a crash), and a later stage is performed only when the earlier
stages succeeded: search only with a truthy token, selection only with a
truthy search result, enrichment only after a selection, the generative
stages only with truthy audio features, and the final display only on a fully
successful run. -/
theorem main_stage_order (g : Globals) (inp : MainInput) :
    (∃ p, p <+: fullOrder
      ∧ ((mainRun g inp).1 = p ∨ (mainRun g inp).1 = p ++ [Ev.crash]))
  ∧ (Ev.search ∈ (mainRun g inp).1 →
      inp.track_name ≠ "" ∧ (tokenCall g inp).result.truthy = true)
  ∧ (Ev.select ∈ (mainRun g inp).1 → (searchCall g inp).result.truthy = true)
  ∧ (Ev.features ∈ (mainRun g inp).1 → ∃ sel, selectedTrack? g inp = some sel)
  ∧ (Ev.djPlaces ∈ (mainRun g inp).1 →
      ∃ fC, featuresCall? g inp = some fC ∧ fC.result.truthy = true)
  ∧ (Ev.displayRecs ∈ (mainRun g inp).1 → (mainRun g inp).1 = fullOrder) := by
  rcases mainRun_cases g inp with
      ⟨h0, hm⟩ | ⟨h0, h1, hm⟩ | ⟨h0, h1, h2, hm⟩ | ⟨h0, h1, h2, hsel, hm | hm⟩
    | ⟨sel, fC, h0, h1, h2, hsel, hfc, h7, hm⟩
    | ⟨sel, fC, h0, h1, h2, hsel, hfc, h7, h8, hm⟩
    | ⟨sel, fC, h0, h1, h2, hsel, hfc, h7, h8, h11, hm⟩
    | ⟨sel, fC, dj, h0, h1, h2, hsel, hfc, h7, h8, h11, h12, hm⟩
    | ⟨sel, fC, h0, h1, h2, hsel, hfc, h7, h8, h11, h12,
        ⟨h9, hm⟩ | ⟨h9, h10, hm⟩ | ⟨h9, h10, hm⟩⟩
  · rw [hm]
    exact ⟨⟨[], ⟨fullOrder, rfl⟩, Or.inl rfl⟩,
      fun hmem => by simp at hmem, fun hmem => by simp at hmem,
      fun hmem => by simp at hmem, fun hmem => by simp at hmem,
      fun hmem => by simp at hmem⟩
  · rw [hm]
    exact ⟨⟨[Ev.auth], ⟨_, rfl⟩, Or.inl rfl⟩,
      fun hmem => by simp at hmem, fun hmem => by simp at hmem,
      fun hmem => by simp at hmem, fun hmem => by simp at hmem,
      fun hmem => by simp at hmem⟩
  · rw [hm]
    exact ⟨⟨[Ev.auth, Ev.search], ⟨_, rfl⟩, Or.inl rfl⟩,
      fun _ => ⟨h0, h1⟩, fun hmem => by simp at hmem,
      fun hmem => by simp at hmem, fun hmem => by simp at hmem,
      fun hmem => by simp at hmem⟩
  · rw [hm]
    exact ⟨⟨[Ev.auth, Ev.search], ⟨_, rfl⟩, Or.inr rfl⟩,
      fun _ => ⟨h0, h1⟩, fun _ => h2,
      fun hmem => by simp at hmem, fun hmem => by simp at hmem,
      fun hmem => by simp at hmem⟩
  · rw [hm]
    exact ⟨⟨[Ev.auth, Ev.search], ⟨_, rfl⟩, Or.inl rfl⟩,
      fun _ => ⟨h0, h1⟩, fun _ => h2,
      fun hmem => by simp at hmem, fun hmem => by simp at hmem,
      fun hmem => by simp at hmem⟩
  · rw [hm]
    exact ⟨⟨[Ev.auth, Ev.search, Ev.select, Ev.features], ⟨_, rfl⟩, Or.inl rfl⟩,
      fun _ => ⟨h0, h1⟩, fun _ => h2, fun _ => ⟨sel, hsel⟩,
      fun hmem => by simp at hmem, fun hmem => by simp at hmem⟩
  · rw [hm]
    exact ⟨⟨[Ev.auth, Ev.search, Ev.select, Ev.features], ⟨_, rfl⟩, Or.inr rfl⟩,
      fun _ => ⟨h0, h1⟩, fun _ => h2, fun _ => ⟨sel, hsel⟩,
      fun hmem => by simp at hmem, fun hmem => by simp at hmem⟩
  · rw [hm]
    exact ⟨⟨[Ev.auth, Ev.search, Ev.select, Ev.features], ⟨_, rfl⟩, Or.inr rfl⟩,
      fun _ => ⟨h0, h1⟩, fun _ => h2, fun _ => ⟨sel, hsel⟩,
      fun hmem => by simp at hmem, fun hmem => by simp at hmem⟩
  · rw [hm]
    exact ⟨⟨[Ev.auth, Ev.search, Ev.select, Ev.features, Ev.djPlaces], ⟨_, rfl⟩,
        Or.inr rfl⟩,
      fun _ => ⟨h0, h1⟩, fun _ => h2, fun _ => ⟨sel, hsel⟩,
      fun _ => ⟨fC, hfc, h7⟩, fun hmem => by simp at hmem⟩
  · rw [hm]
    exact ⟨⟨[Ev.auth, Ev.search, Ev.select, Ev.features, Ev.djPlaces, Ev.artwork,
        Ev.recs], ⟨_, rfl⟩, Or.inl rfl⟩,
      fun _ => ⟨h0, h1⟩, fun _ => h2, fun _ => ⟨sel, hsel⟩,
      fun _ => ⟨fC, hfc, h7⟩, fun hmem => by simp at hmem⟩
  · rw [hm]
    exact ⟨⟨[Ev.auth, Ev.search, Ev.select, Ev.features, Ev.djPlaces, Ev.artwork,
        Ev.recs], ⟨_, rfl⟩, Or.inr rfl⟩,
      fun _ => ⟨h0, h1⟩, fun _ => h2, fun _ => ⟨sel, hsel⟩,
      fun _ => ⟨fC, hfc, h7⟩, fun hmem => by simp at hmem⟩
  · rw [hm]
    exact ⟨⟨fullOrder, ⟨[], List.append_nil _⟩, Or.inl rfl⟩,
      fun _ => ⟨h0, h1⟩, fun _ => h2, fun _ => ⟨sel, hsel⟩,
      fun _ => ⟨fC, hfc, h7⟩, fun _ => rfl⟩

/-- Witness for C3: the concrete fully successful run reaches the display
stage, hence its trace is exactly the canonical order. -/
theorem main_stage_order_witness :
    (mainRun sampleGlobals successInput).1 = fullOrder :=
  (main_stage_order sampleGlobals successInput).2.2.2.2.2 (by decide)

/-- C5: a fully successful end-to-end run of `main` issues exactly four REST
calls — within the three-to-six range — and they go to the fixed token,
search, audio-features, and recommendations endpoints, in that order. -/
theorem successful_run_request_count (g : Globals) (inp : MainInput)
    (h : (mainRun g inp).1 = fullOrder) :
    (mainRun g inp).2.length = 4
  ∧ 3 ≤ (mainRun g inp).2.length ∧ (mainRun g inp).2.length ≤ 6
  ∧ ∃ tid : Json,
      (mainRun g inp).2.map HttpRequest.url
        = ["https://accounts.spotify.com/api/token",
            "https://api.spotify.com/v1/search",
            "https://api.spotify.com/v1/audio-features/" ++ tid.pyStr,
            "https://api.spotify.com/v1/recommendations"] := by
  rcases mainRun_cases g inp with
      ⟨h0, hm⟩ | ⟨h0, h1, hm⟩ | ⟨h0, h1, h2, hm⟩ | ⟨h0, h1, h2, hsel, hm | hm⟩
    | ⟨sel, fC, h0, h1, h2, hsel, hfc, h7, hm⟩
    | ⟨sel, fC, h0, h1, h2, hsel, hfc, h7, h8, hm⟩
    | ⟨sel, fC, h0, h1, h2, hsel, hfc, h7, h8, h11, hm⟩
    | ⟨sel, fC, dj, h0, h1, h2, hsel, hfc, h7, h8, h11, h12, hm⟩
    | ⟨sel, fC, h0, h1, h2, hsel, hfc, h7, h8, h11, h12,
        ⟨h9, hm⟩ | ⟨h9, h10, hm⟩ | ⟨h9, h10, hm⟩⟩
  all_goals rw [hm] at h ⊢
  all_goals first
  | (exfalso; simp [fullOrder] at h; done)
  | · clear h
      have htok : (tokenCall g inp).requests
          = [tokenRequest g.SPOTIFY_CLIENT_ID g.SPOTIFY_CLIENT_SECRET] :=
        get_spotify_access_token_requests _ _ _
      have hsearch : (searchCall g inp).requests
          = [searchRequest inp.track_name (tokenCall g inp).result] :=
        search_tracks_requests _ _ _
      have hfceq : fC = get_audio_features sel.id (tokenCall g inp).result
          inp.featuresResp := by
        rw [featuresCall?, hsel] at hfc
        exact (Option.some.inj hfc).symm
      obtain ⟨p, hp⟩ := get_track_recommendations_truthy_params _ _ _ _ h9
      have hrreq : (recsCallOf g inp sel fC.result).requests
          = [recsRequest p (tokenCall g inp).result] :=
        get_track_recommendations_requests _ _ _ _ _ hp
      subst hfceq
      rw [get_audio_features_requests] at hm ⊢
      rw [htok, hsearch, hrreq]
      refine ⟨rfl, by norm_num, by norm_num, ⟨sel.id, ?_⟩⟩
      simp [tokenRequest, searchRequest, audioFeaturesRequest, recsRequest]

/-- Witness for C5 at the concrete fully successful run. -/
theorem successful_run_request_count_witness :
    (mainRun sampleGlobals successInput).2.length = 4 :=
  (successful_run_request_count sampleGlobals successInput (by decide)).1

/-- C9 counterexample: for the completion text `"1."`, `recommend_dj_places`
returns a list whose only element is the empty string — a line made entirely
of numbering characters survives the non-empty filter and is stripped to
nothing — so the returned elements are not all non-empty. -/
theorem dj_places_nonempty_counterexample :
    recommend_dj_places sampleFeatures (Except.ok "1.") = some (some [""], [])
  ∧ ¬ (∀ out places,
        recommend_dj_places sampleFeatures (Except.ok "1.") = some out →
        out.1 = some places → ∀ p ∈ places, p ≠ "") := by
  have h1 : recommend_dj_places sampleFeatures (Except.ok "1.")
      = some (some [""], []) := by
    decide
  exact ⟨h1, fun hall => hall (some [""], []) [""] h1 rfl "" (by decide) rfl⟩

/-- C9 as amended: on success `recommend_dj_places` returns exactly the
non-empty lines of the stripped completion text, each with its leading
run of digits, dots, and spaces removed; an element can therefore be empty
(when its line consisted only of such characters), and whenever an element is
non-empty its first character is outside that stripped set. -/
theorem dj_places_cleaning_amended (f : Json) (content : String)
    (out : Option (List String) × List String) (places : List String)
    (h : recommend_dj_places f (Except.ok content) = some out)
    (hout : out.1 = some places) :
    places = clean_places content
  ∧ ∀ p ∈ places,
      (∃ line, line ∈ splitNl (pyStrip content) ∧ line ≠ "" ∧ p = pyLstripNum line)
    ∧ (∀ c, p.toList.head? = some c → stripChars.contains c = false) := by
  have hpl : places = clean_places content := by
    rcases hd : djPrompt f with _ | d
    · simp [recommend_dj_places, hd] at h
    · simp only [recommend_dj_places, hd, Option.some.injEq] at h
      subst h
      simpa using hout.symm
  subst hpl
  refine ⟨rfl, ?_⟩
  intro p hp
  simp only [clean_places, List.mem_map] at hp
  obtain ⟨line, hline, rfl⟩ := hp
  have hmem : line ∈ splitNl (pyStrip content) := (List.mem_filter.mp hline).1
  have hne : line ≠ "" := by simpa using (List.mem_filter.mp hline).2
  refine ⟨⟨line, hmem, hne, rfl⟩, ?_⟩
  intro c hc
  have hdw : (pyLstripNum line).toList
      = line.toList.dropWhile (fun ch => stripChars.contains ch) := rfl
  rw [hdw] at hc
  exact head?_dropWhile_false _ line.toList c hc

/-- Witness for the amended C9 at a concrete numbered completion. -/
theorem dj_places_cleaning_amended_witness :
    stripChars.contains 'C' = false :=
  ((dj_places_cleaning_amended sampleFeatures "1. Club"
      (some (clean_places "1. Club"), []) (clean_places "1. Club")
      (by decide) rfl).2 "Club" (by decide)).2 'C' (by decide)
